import Mathlib

/-!
Shallow embedding of the thread-lifecycle controller
(src/phoenix/base/google_base/base/threading/thread.cc), the value-map
preference store (src/phoenix/base/google_base/base/prefs/value_map_pref_store.cc)
and the error-code-to-string table
(src/phoenix/network/google_net/net/base/net_errors.cpp), with theorems
checking the specification claims against these definitions.

Concurrency is embedded sequentially: the worker entry point
(Thread::ThreadMain) is split into the part up to signaling start_event_
(threadMainStart) and the part from Run() to thread exit (threadMainFinish);
PlatformThread::Join inside Thread::Stop is modelled by applying
threadMainFinish, since Join blocks exactly until the worker has executed
that remainder. OS thread creation success is a Boolean parameter, and the
OS-reported thread id a Nat parameter. DCHECK conditions are recorded in
comments; the one DCHECK the claims reason about (the quit-properly assert
at the end of ThreadMain) is returned explicitly as a Bool.
-/

namespace Phoenix

/-- Message-loop categories (MessageLoop::Type). TYPE_CUSTOM is the category
chosen when a message pump factory is supplied. -/
inductive MessageLoopType where
  | typeDefault
  | typeUi
  | typeIo
  | typeCustom
deriving DecidableEq, Repr

/-- base::WaitableEvent: a binary event. Construction arguments in the source
are (manual_reset, initially_signaled). -/
structure WaitableEvent where
  manualReset : Bool
  signaled : Bool
deriving DecidableEq, Repr

/-- WaitableEvent::Signal. -/
def WaitableEvent.Signal (e : WaitableEvent) : WaitableEvent :=
  { e with signaled := true }

/-- WaitableEvent::Reset. -/
def WaitableEvent.Reset (e : WaitableEvent) : WaitableEvent :=
  { e with signaled := false }

/-- kInvalidThreadId sentinel for PlatformThreadId. -/
def kInvalidThreadId : Nat := 0

/-- State of one base::Thread controller object, mirroring the fields of the
Thread class used by thread.cc, together with the worker-side thread-local
quit flag (lazy_tls_bool) and the pending quit task of the message loop. -/
structure ThreadState where
  /-- name_: diagnostic label fixed at construction. -/
  name : String
  /-- stopping_. -/
  stopping : Bool
  /-- running_, guarded by running_lock_. -/
  running : Bool
  /-- thread_: native handle; none models PlatformThreadHandle::is_null. -/
  thread : Option Nat
  /-- id_: worker OS thread id. -/
  id : Nat
  /-- id_event_: manual-reset, initially unsignaled. -/
  idEvent : WaitableEvent
  /-- start_event_: auto-reset, initially unsignaled. -/
  startEvent : WaitableEvent
  /-- message_loop_: observation pointer; carries the loop category. -/
  messageLoop : Option MessageLoopType
  /-- message_loop_timer_slack_. -/
  timerSlack : Nat
  /-- whether BindToCurrentThread has run on the current loop. -/
  loopBound : Bool
  /-- lazy_tls_bool on the worker thread: the thread-local quit-properly
  flag; a fresh thread reads it as false. -/
  tlsQuitProperly : Bool
  /-- whether the ThreadQuitHelper task posted by StopSoon is pending in the
  message loop. -/
  postedQuit : Bool
  /-- whether QuitWhenIdle has been requested on the loop. -/
  quitRequested : Bool
deriving DecidableEq, Repr

/-- Thread::Thread(name): the constructed state (thread.cc lines 58-72);
id_event_(true, false) is manual-reset, start_event_(false, false) auto-reset. -/
def mkThread (name : String) : ThreadState :=
  { name := name
    stopping := false
    running := false
    thread := none
    id := kInvalidThreadId
    idEvent := { manualReset := true, signaled := false }
    startEvent := { manualReset := false, signaled := false }
    messageLoop := none
    timerSlack := 0
    loopBound := false
    tlsQuitProperly := false
    postedQuit := false
    quitRequested := false }

/-- Thread::Options (thread.cc lines 40-53); priority and stack size do not
affect any modelled state, so only the fields the lifecycle reads appear.
hasMessagePumpFactory models message_pump_factory.is_null() being false. -/
structure Options where
  message_loop_type : MessageLoopType
  timer_slack : Nat
  hasMessagePumpFactory : Bool
deriving DecidableEq, Repr

/-- Thread::Options::Options(): TYPE_DEFAULT, TIMER_SLACK_NONE, no factory. -/
def Options.default : Options :=
  { message_loop_type := .typeDefault, timer_slack := 0,
    hasMessagePumpFactory := false }

/-- Thread::StartWithOptions (thread.cc lines 87-128). spawnOk is the result
of PlatformThread::CreateWithPriority and handle the handle it would produce.
Returns the C++ bool result and the updated state. -/
def StartWithOptions (spawnOk : Bool) (handle : Nat) (options : Options)
    (s : ThreadState) : Bool × ThreadState :=
  -- DCHECK(!message_loop_);
  -- id_event_.Reset(); id_ = kInvalidThreadId;
  let s := { s with idEvent := s.idEvent.Reset, id := kInvalidThreadId }
  -- SetThreadWasQuitProperly(false); (the worker thread starts fresh, so its
  -- thread-local flag reads false either way)
  let s := { s with tlsQuitProperly := false }
  -- type = options.message_loop_type, forced to TYPE_CUSTOM by a pump factory
  let ty := if options.hasMessagePumpFactory then MessageLoopType.typeCustom
            else options.message_loop_type
  -- message_loop_timer_slack_ = options.timer_slack;
  let s := { s with timerSlack := options.timer_slack }
  -- MessageLoop::CreateUnbound(...); message_loop_ = message_loop.get();
  -- a freshly created loop is unbound, has no pending task and no quit request
  let s := { s with messageLoop := some ty, loopBound := false,
                    postedQuit := false, quitRequested := false }
  -- start_event_.Reset();
  let s := { s with startEvent := s.startEvent.Reset }
  -- under thread_lock_: PlatformThread::CreateWithPriority(...)
  if spawnOk then
    -- success: thread_ populated, loop ownership moves to the worker
    (true, { s with thread := some handle })
  else
    -- failure: message_loop_ = nullptr; return false (the scoped_ptr
    -- releases the created loop)
    (false, { s with messageLoop := none })

/-- Thread::Start (thread.cc lines 78-85): StartWithOptions with default
options (the OS_WIN COM branch is not built). -/
def Start (spawnOk : Bool) (handle : Nat) (s : ThreadState) :
    Bool × ThreadState :=
  StartWithOptions spawnOk handle Options.default s

/-- Thread::WaitUntilThreadStarted (thread.cc lines 138-144): false when
message_loop_ is null, otherwise waits on start_event_ and returns true. -/
def WaitUntilThreadStarted (s : ThreadState) : Bool :=
  if s.messageLoop.isNone then false
  else
    -- start_event_.Wait(); return true;
    true

/-- Thread::StartAndWaitForTesting (thread.cc lines 130-136). Note the source
discards the value WaitUntilThreadStarted returns. -/
def StartAndWaitForTesting (spawnOk : Bool) (handle : Nat) (s : ThreadState) :
    Bool × ThreadState :=
  let r := Start spawnOk handle s
  if !r.1 then (false, r.2)
  else
    let _w := WaitUntilThreadStarted r.2
    (true, r.2)

/-- Thread::GetThreadId (thread.cc lines 179-184): waits on id_event_, then
returns id_. none models a wait that would block forever because nothing
signals the event. id_event_ is manual-reset, so a completed wait leaves it
signaled. -/
def GetThreadId (s : ThreadState) : Option Nat :=
  if s.idEvent.signaled then some s.id else none

/-- Thread::IsRunning (thread.cc lines 186-197). -/
def IsRunning (s : ThreadState) : Bool :=
  if s.messageLoop.isSome && !s.stopping then true
  else
    -- AutoLock lock(running_lock_); return running_;
    s.running

/-- Thread::IsStopping (thread.cc lines 198-201). -/
def IsStopping (s : ThreadState) : Bool :=
  s.stopping

/-- Thread::GetThreadWasQuitProperly (thread.cc lines 210-216): quit_properly
starts true and is overwritten by the thread-local flag only when NDEBUG is
not defined (debug = true). -/
def GetThreadWasQuitProperly (debug : Bool) (tls : Bool) : Bool :=
  if debug then tls else true

/-- ThreadQuitHelper (thread.cc lines 35-38): the quit task posted by
StopSoon; it calls MessageLoop::QuitWhenIdle and sets the thread-local
quit-properly flag to true. -/
def ThreadQuitHelper (s : ThreadState) : ThreadState :=
  { s with quitRequested := true, tlsQuitProperly := true }

/-- Thread::StopSoon (thread.cc lines 167-177). DCHECK_NE(GetThreadId(),
PlatformThread::CurrentId()) records the caller-is-not-worker precondition. -/
def StopSoon (s : ThreadState) : ThreadState :=
  if s.stopping || s.messageLoop.isNone then s
  else
    -- stopping_ = true; task_runner()->PostTask(Bind(&ThreadQuitHelper));
    { s with stopping := true, postedQuit := true }

/-- Steps of Thread::ThreadMain, in the order the claims talk about them. -/
inductive Action where
  | captureId
  | signalIdEvent
  | setThreadName
  | bindLoop
  | runInit
  | setRunningTrue
  | signalStartEvent
  | runLoop
  | setRunningFalse
  | cleanUp
  | quitAssert
  | nullLoop
deriving DecidableEq, Repr

/-- Thread::ThreadMain up to and including start_event_.Signal() (thread.cc
lines 218-253), returning the state and the trace of steps taken, in source
order. -/
def threadMainStart (osId : Nat) (s : ThreadState) :
    ThreadState × List Action :=
  -- id_ = PlatformThread::CurrentId(); DCHECK_NE(kInvalidThreadId, id_);
  let s := { s with id := osId }
  -- id_event_.Signal();
  let s := { s with idEvent := s.idEvent.Signal }
  -- PlatformThread::SetName(name_.c_str()); (OS-side effect only)
  -- DCHECK(message_loop_); message_loop_->BindToCurrentThread();
  -- message_loop_->set_thread_name(name_); SetTimerSlack(...);
  let s := { s with loopBound := true }
  -- Init();
  -- { AutoLock lock(running_lock_); running_ = true; }
  let s := { s with running := true }
  -- start_event_.Signal();
  let s := { s with startEvent := s.startEvent.Signal }
  (s, [.captureId, .signalIdEvent, .setThreadName, .bindLoop, .runInit,
       .setRunningTrue, .signalStartEvent])

/-- Run(message_loop_) (thread.cc lines 202-204 and 255): the loop executes
its pending tasks until quit; the only modelled task is the ThreadQuitHelper
posted by StopSoon. -/
def runLoop (s : ThreadState) : ThreadState :=
  if s.postedQuit then ThreadQuitHelper { s with postedQuit := false } else s

/-- Thread::ThreadMain from Run() to thread exit (thread.cc lines 255-279).
debug is true when NDEBUG is not defined. The middle Bool of the result is
whether the DCHECK(GetThreadWasQuitProperly()) at lines 269-274 fires: the
guard on message_loop->type() != TYPE_CUSTOM is in the source; DCHECK itself
evaluates its condition only in debug builds. -/
def threadMainFinish (debug : Bool) (s : ThreadState) :
    ThreadState × Bool × List Action :=
  -- Run(message_loop_);
  let s := runLoop s
  -- { AutoLock lock(running_lock_); running_ = false; }
  let s := { s with running := false }
  -- CleanUp();
  -- if (message_loop->type() != MessageLoop::TYPE_CUSTOM)
  --   DCHECK(GetThreadWasQuitProperly());
  let fired := debug
      && (match s.messageLoop with
          | some ty => ty != MessageLoopType.typeCustom
          | none => false)
      && !(GetThreadWasQuitProperly debug s.tlsQuitProperly)
  -- message_loop_ = nullptr;
  let s := { s with messageLoop := none }
  (s, fired, [.runLoop, .setRunningFalse, .cleanUp, .quitAssert, .nullLoop])

/-- Thread::ThreadMain (thread.cc lines 218-279) as one function: the start
part followed by the finish part, with the concatenated trace. -/
def ThreadMain (debug : Bool) (osId : Nat) (s : ThreadState) :
    ThreadState × Bool × List Action :=
  let r1 := threadMainStart osId s
  let r2 := threadMainFinish debug r1.1
  (r2.1, r2.2.1, r1.2 ++ r2.2.2)

/-- Thread::Stop (thread.cc lines 146-165). The returned Bool is whether the
call reached PlatformThread::Join. Join blocks until the worker finishes the
remainder of ThreadMain, so its effect on the shared state is
threadMainFinish. -/
def Stop (debug : Bool) (s : ThreadState) : ThreadState × Bool :=
  -- AutoLock lock(thread_lock_);
  if s.thread.isNone then (s, false)
  else
    let s := StopSoon s
    -- PlatformThread::Join(thread_);
    let s := (threadMainFinish debug s).1
    -- thread_ = PlatformThreadHandle(); DCHECK(!message_loop_);
    -- stopping_ = false;
    ({ s with thread := none, stopping := false }, true)

/-- Values held by the preference store (base::Value), reduced to the
variants equality comparison needs. -/
inductive PrefValue where
  | intV : Int → PrefValue
  | strV : String → PrefValue
  | boolV : Bool → PrefValue
deriving DecidableEq, Repr

/-- Modelled from the spec: PrefValueMap (the prefs_ member consumed by
value_map_pref_store.cc) is not under src/. The spec describes the store as
a simple key/value map whose set operation reports whether it changed, so
the map is an association list keyed by the preference name. -/
abbrev PrefValueMap : Type := List (String × PrefValue)

/-- Modelled from the spec: PrefValueMap::GetValue, the lookup behind
ValueMapPrefStore::GetValue. -/
def PrefValueMap.GetValue : PrefValueMap → String → Option PrefValue
  | [], _ => none
  | (k, v) :: rest, key => if k = key then some v else GetValue rest key

/-- Modelled from the spec: PrefValueMap::SetValue stores value under key and
returns whether the stored value changed; overwriting with an equal value
changes nothing and returns false. -/
def PrefValueMap.SetValue : PrefValueMap → String → PrefValue →
    PrefValueMap × Bool
  | [], key, value => ([(key, value)], true)
  | (k, v) :: rest, key, value =>
    if k = key then
      if v = value then ((k, v) :: rest, false)
      else ((key, value) :: rest, true)
    else
      let r := SetValue rest key value
      ((k, v) :: r.1, r.2)

/-- A ValueMapPrefStore: the prefs_ map plus the registered observers_
(observers are identified by a Nat). -/
structure ValueMapPrefStore where
  prefs : PrefValueMap
  observers : List Nat
deriving DecidableEq, Repr

/-- An OnPrefValueChanged(key) notification delivered to one observer. -/
structure PrefNotification where
  observer : Nat
  key : String
deriving DecidableEq, Repr

/-- ValueMapPrefStore::GetValue (value_map_pref_store.cc lines 15-18). -/
def ValueMapPrefStore.GetValue (st : ValueMapPrefStore) (key : String) :
    Option PrefValue :=
  st.prefs.GetValue key

/-- ValueMapPrefStore::SetValue (value_map_pref_store.cc lines 32-37). The
C++ function returns void; its observable outcome is the updated store and
the OnPrefValueChanged notifications sent by FOR_EACH_OBSERVER, which run
exactly when prefs_.SetValue reported a change. flags is accepted and unused,
as in the source. -/
def ValueMapPrefStore.SetValue (st : ValueMapPrefStore) (key : String)
    (value : PrefValue) (_flags : Nat) :
    ValueMapPrefStore × List PrefNotification :=
  let r := st.prefs.SetValue key value
  if r.2 then
    ({ st with prefs := r.1 },
     st.observers.map (fun o => { observer := o, key := key }))
  else
    ({ st with prefs := r.1 }, [])

/-- net::ErrorToString (net_errors.cpp lines 27-40). Modelled from the spec
in one respect: net/base/net_error_list.h, which expands into the switch
cases, is not under src/, so the table is a parameter associating each error
code with its label text (the switch requires the case values to be
distinct; List.lookup returns the first match). Code 0 short-circuits to
"net::OK" before the switch, and the default case yields "net::<unknown>". -/
def ErrorToString (table : List (Int × String)) (error : Int) : String :=
  if error = 0 then "net::OK"
  else
    match table.lookup error with
    | some label => "net::" ++ label
    | none => "net::<unknown>"

/-- Reachability invariant of a controller: when no native thread handle is
held, the observation pointer is null and the stopping and running flags are
clear. It holds for the constructed state and is what the not-started branch
of Stop relies on. -/
def ControllerInv (s : ThreadState) : Prop :=
  s.thread = none →
    s.messageLoop = none ∧ s.stopping = false ∧ s.running = false

/-- One-pass characterization of PrefValueMap.SetValue: either nothing
changed (returns false, same map, the key already held an equal value), or
something changed (returns true, the key did not hold an equal value before,
and holds the new value after). -/
theorem PrefValueMap.setValue_spec (m : PrefValueMap) (k : String)
    (v : PrefValue) :
    ((m.SetValue k v).2 = false ∧ (m.SetValue k v).1 = m ∧
      m.GetValue k = some v) ∨
    ((m.SetValue k v).2 = true ∧ m.GetValue k ≠ some v ∧
      (m.SetValue k v).1.GetValue k = some v) := by
  induction m with
  | nil =>
    right
    refine ⟨rfl, by simp [PrefValueMap.GetValue], ?_⟩
    simp [PrefValueMap.SetValue, PrefValueMap.GetValue]
  | cons hd rest ih =>
    obtain ⟨k0, v0⟩ := hd
    by_cases hk : k0 = k
    · subst hk
      by_cases hv : v0 = v
      · subst hv
        left
        simp [PrefValueMap.SetValue, PrefValueMap.GetValue]
      · right
        simp [PrefValueMap.SetValue, PrefValueMap.GetValue, hv]
    · rcases ih with ⟨h2, h1, hg⟩ | ⟨h2, hg, hg2⟩
      · left
        simp [PrefValueMap.SetValue, PrefValueMap.GetValue, hk, h2, h1, hg]
      · right
        simp [PrefValueMap.SetValue, PrefValueMap.GetValue, hk, h2, hg, hg2]

end Phoenix

namespace Phoenix

/-- Claim C1: in the worker entry point, the OS thread id is captured and
stored into threadId and idEvent is signaled before every other step (thread
naming, TaskLoop binding, Init), and startEvent is signaled only after the
TaskLoop is bound, Init has returned and running is set under runningLock;
the loop runs only after startEvent is signaled. -/
theorem c1_threadMain_ordering (debug : Bool) (osId : Nat) (s : ThreadState) :
    (ThreadMain debug osId s).1.id = osId ∧
    ((threadMainStart osId s).1.id = osId ∧
      (threadMainStart osId s).1.idEvent.signaled = true) ∧
    ((ThreadMain debug osId s).2.2.indexOf .captureId <
        (ThreadMain debug osId s).2.2.indexOf .signalIdEvent ∧
      ∀ a : Action, a ≠ .captureId → a ≠ .signalIdEvent →
        (ThreadMain debug osId s).2.2.indexOf .signalIdEvent <
          (ThreadMain debug osId s).2.2.indexOf a) ∧
    (ThreadMain debug osId s).2.2.indexOf .bindLoop <
      (ThreadMain debug osId s).2.2.indexOf .signalStartEvent ∧
    (ThreadMain debug osId s).2.2.indexOf .runInit <
      (ThreadMain debug osId s).2.2.indexOf .signalStartEvent ∧
    (ThreadMain debug osId s).2.2.indexOf .setRunningTrue <
      (ThreadMain debug osId s).2.2.indexOf .signalStartEvent ∧
    (ThreadMain debug osId s).2.2.indexOf .signalStartEvent <
      (ThreadMain debug osId s).2.2.indexOf .runLoop := by
  have htr : (ThreadMain debug osId s).2.2 =
      [.captureId, .signalIdEvent, .setThreadName, .bindLoop, .runInit,
       .setRunningTrue, .signalStartEvent, .runLoop, .setRunningFalse,
       .cleanUp, .quitAssert, .nullLoop] := rfl
  have hid : (ThreadMain debug osId s).1.id = osId := by
    simp only [ThreadMain, threadMainFinish, runLoop, ThreadQuitHelper,
      threadMainStart]
    split <;> rfl
  refine ⟨hid, ⟨rfl, rfl⟩, ⟨?_, ?_⟩, ?_, ?_, ?_, ?_⟩ <;> rw [htr]
  · decide
  · intro a ha1 ha2
    cases a <;> first | decide | exact absurd rfl ha1 | exact absurd rfl ha2
  · decide
  · decide
  · decide
  · decide

/-- Witness for c1_threadMain_ordering: concrete run with worker id 7,
instantiating the quantified step at the run-loop step. -/
theorem c1_threadMain_ordering_witness :
    (ThreadMain true 7 (mkThread "w")).1.id = 7 ∧
    (ThreadMain true 7 (mkThread "w")).2.2.indexOf Action.signalIdEvent <
      (ThreadMain true 7 (mkThread "w")).2.2.indexOf Action.runLoop :=
  ⟨(c1_threadMain_ordering true 7 (mkThread "w")).1,
   (c1_threadMain_ordering true 7 (mkThread "w")).2.2.1.2 Action.runLoop
     (by decide) (by decide)⟩

/-- Claim C2: for every controller satisfying the reachability invariant,
after Stop returns stopping is false, the loop observation pointer is null,
IsRunning returns false, and a subsequent Start (when the OS creates the
thread) succeeds. -/
theorem c2_stop_then_restart (debug : Bool) (handle : Nat) (s : ThreadState)
    (h : ControllerInv s) :
    (Stop debug s).1.stopping = false ∧
    (Stop debug s).1.messageLoop = none ∧
    IsRunning (Stop debug s).1 = false ∧
    (Start true handle (Stop debug s).1).1 = true := by
  cases ht : s.thread with
  | none =>
    obtain ⟨hl, hs, hr⟩ := h ht
    simp [Stop, ht, IsRunning, hl, hs, hr, Start, StartWithOptions]
  | some v =>
    simp [Stop, ht, IsRunning, Start, StartWithOptions]
    exact ⟨rfl, rfl⟩

/-- Witness for c2_stop_then_restart at the constructed controller state. -/
theorem c2_stop_then_restart_witness :
    (Stop true (mkThread "worker-A")).1.stopping = false ∧
    (Stop true (mkThread "worker-A")).1.messageLoop = none ∧
    IsRunning (Stop true (mkThread "worker-A")).1 = false ∧
    (Start true 1 (Stop true (mkThread "worker-A")).1).1 = true :=
  c2_stop_then_restart true 1 (mkThread "worker-A")
    (fun _ => by simp [mkThread])

/-- Claim C3: IsRunning returns true when the loop observation pointer is
non-null and stopping is false, and otherwise returns running; equivalently
it is the disjunction (loop set and not stopping) or running. -/
theorem c3_isRunning_characterization (s : ThreadState) :
    IsRunning s = ((s.messageLoop.isSome && !s.stopping) || s.running) := by
  unfold IsRunning
  cases h : (s.messageLoop.isSome && !s.stopping) <;> simp [h]

/-- Claim C4: StartAndWaitForTesting returns true exactly when Start
returns true and WaitUntilThreadStarted on the post-Start state returns
true; a failure of either makes it return false. -/
theorem c4_start_and_wait_composition (spawnOk : Bool) (handle : Nat)
    (s : ThreadState) :
    (StartAndWaitForTesting spawnOk handle s).1 =
      ((Start spawnOk handle s).1 &&
        WaitUntilThreadStarted (Start spawnOk handle s).2) := by
  cases spawnOk <;>
    simp [StartAndWaitForTesting, Start, StartWithOptions,
      WaitUntilThreadStarted, Options.default]

/-- Claim C5: when OS thread creation fails, StartWithOptions returns false,
the loop observation pointer is back to null (the created TaskLoop was
released), the controller still holds no native handle, and a later Start
whose spawn succeeds returns true. -/
theorem c5_spawn_failure_recoverable (handle : Nat) (options : Options)
    (s : ThreadState) (_hl : s.messageLoop = none) (ht : s.thread = none) :
    (StartWithOptions false handle options s).1 = false ∧
    (StartWithOptions false handle options s).2.messageLoop = none ∧
    (StartWithOptions false handle options s).2.thread = none ∧
    (StartWithOptions false handle options s).2.running = s.running ∧
    (Start true handle (StartWithOptions false handle options s).2).1 =
      true := by
  refine ⟨rfl, rfl, ?_, rfl, rfl⟩
  simp [StartWithOptions, ht]

/-- Witness for c5_spawn_failure_recoverable at the constructed state. -/
theorem c5_spawn_failure_recoverable_witness :
    (StartWithOptions false 1 Options.default (mkThread "w")).1 = false ∧
    (StartWithOptions false 1 Options.default (mkThread "w")).2.messageLoop
      = none ∧
    (StartWithOptions false 1 Options.default (mkThread "w")).2.thread
      = none ∧
    (StartWithOptions false 1 Options.default
        (mkThread "w")).2.running = (mkThread "w").running ∧
    (Start true 1
        (StartWithOptions false 1 Options.default (mkThread "w")).2).1 =
      true :=
  c5_spawn_failure_recoverable 1 Options.default (mkThread "w") rfl rfl

/-- Claim C6: Stop on a controller with no live native thread handle is a
no-op: it returns before reaching Join (the returned flag is false) and the
state is unchanged in every field. -/
theorem c6_stop_never_started (debug : Bool) (s : ThreadState)
    (h : s.thread = none) :
    Stop debug s = (s, false) := by
  simp [Stop, h]

/-- Witness for c6_stop_never_started at the constructed state. -/
theorem c6_stop_never_started_witness :
    (mkThread "never").thread = none ∧
    Stop true (mkThread "never") = (mkThread "never", false) :=
  ⟨rfl, c6_stop_never_started true (mkThread "never") rfl⟩

/-- Claim C7: the quit-properly assertion after the run loop can fire only
in debug builds and only when the loop category is not TYPE_CUSTOM; and when
shutdown went through the posted ThreadQuitHelper task, the asserted
condition GetThreadWasQuitProperly is true, so the assertion does not fire. -/
theorem c7_quit_assert (debug : Bool) (s : ThreadState)
    (ty : MessageLoopType) (hloop : s.messageLoop = some ty) :
    ((threadMainFinish debug s).2.1 = true →
      debug = true ∧ ty ≠ MessageLoopType.typeCustom) ∧
    (s.postedQuit = true →
      GetThreadWasQuitProperly debug (runLoop s).tlsQuitProperly = true ∧
      (threadMainFinish debug s).2.1 = false) := by
  constructor
  · intro hf
    cases debug with
    | false =>
      exfalso
      cases hq : s.postedQuit <;>
        simp [threadMainFinish, runLoop, ThreadQuitHelper, hq] at hf
    | true =>
      refine ⟨rfl, fun hcustom => ?_⟩
      subst hcustom
      cases hq : s.postedQuit <;>
        simp [threadMainFinish, runLoop, ThreadQuitHelper, hq, hloop,
          GetThreadWasQuitProperly] at hf
  · intro hq
    have hrun : (runLoop s).tlsQuitProperly = true := by
      simp [runLoop, hq, ThreadQuitHelper]
    constructor
    · cases debug <;> simp [GetThreadWasQuitProperly, hrun]
    · cases debug <;>
        simp [threadMainFinish, GetThreadWasQuitProperly, hrun]

/-- Witness for c7_quit_assert: a default-category loop stopped through the
posted quit task does not trip the assertion in a debug build. -/
theorem c7_quit_assert_witness :
    (threadMainFinish true
        { mkThread "w" with
            messageLoop := some MessageLoopType.typeDefault,
            postedQuit := true }).2.1 = false :=
  ((c7_quit_assert true
      { mkThread "w" with
          messageLoop := some MessageLoopType.typeDefault,
          postedQuit := true }
      MessageLoopType.typeDefault rfl).2 rfl).2

/-- Claim C8, counterexample: the C++ SetValue of ValueMapPrefStore returns
void, so it does not return whether the stored value changed. Concretely, on
a store with no observers, the call that stores a fresh value under "k" (a
change) and the call that overwrites "k" with an equal value (not a change)
hand the caller identical results apart from the new state: empty
notification lists both times and no returned change flag, even though the
first call changed the stored value and the second did not. -/
theorem c8_setValue_counterexample :
    (((⟨[], []⟩ : ValueMapPrefStore).SetValue "k" (.intV 1) 0).1.GetValue "k"
        = some (.intV 1) ∧
      (⟨[], []⟩ : ValueMapPrefStore).GetValue "k" = none) ∧
    ((((⟨[], []⟩ : ValueMapPrefStore).SetValue "k" (.intV 1) 0).1.SetValue
          "k" (.intV 1) 0).1 =
        ((⟨[], []⟩ : ValueMapPrefStore).SetValue "k" (.intV 1) 0).1) ∧
    ((((⟨[], []⟩ : ValueMapPrefStore).SetValue "k" (.intV 1) 0).1.SetValue
          "k" (.intV 1) 0).2 =
        ((⟨[], []⟩ : ValueMapPrefStore).SetValue "k" (.intV 1) 0).2) := by
  decide

/-- Claim C8 as amended: SetValue has no return value; its observer
notifications fire if and only if the stored value actually changed — when
the value under key is unchanged by the call no notification is sent, and
when it changes every registered observer receives one OnPrefValueChanged
for that key. -/
theorem c8_setValue_notifies_iff_changed (st : ValueMapPrefStore)
    (key : String) (value : PrefValue) (flags : Nat) :
    ((st.SetValue key value flags).1.GetValue key = st.GetValue key →
      (st.SetValue key value flags).2 = []) ∧
    ((st.SetValue key value flags).1.GetValue key ≠ st.GetValue key →
      (st.SetValue key value flags).2 =
        st.observers.map (fun o => { observer := o, key := key })) := by
  rcases PrefValueMap.setValue_spec st.prefs key value with
    ⟨h2, h1, hg⟩ | ⟨h2, hg, hg2⟩
  · constructor
    · intro _
      simp [ValueMapPrefStore.SetValue, h2]
    · intro hne
      exfalso
      exact hne (by simp [ValueMapPrefStore.SetValue,
        ValueMapPrefStore.GetValue, h2, h1])
  · constructor
    · intro heq
      exfalso
      rw [show (st.SetValue key value flags).1.GetValue key =
          (st.prefs.SetValue key value).1.GetValue key from by
            simp [ValueMapPrefStore.SetValue, ValueMapPrefStore.GetValue, h2]]
        at heq
      rw [hg2] at heq
      exact hg heq.symm
    · intro _
      simp [ValueMapPrefStore.SetValue, h2]

/-- Witness for c8_setValue_notifies_iff_changed: on a store with one
observer, storing a fresh value notifies that observer. -/
theorem c8_setValue_notifies_iff_changed_witness :
    ((⟨[], [0]⟩ : ValueMapPrefStore).SetValue "k" (.intV 1) 0).2 =
      [{ observer := 0, key := "k" }] :=
  (c8_setValue_notifies_iff_changed ⟨[], [0]⟩ "k" (.intV 1) 0).2 (by decide)

/-- Claim C9: ErrorToString is a total function of the code: it yields
"net::OK" for 0, "net::" prefixed to the table label for any nonzero code in
the table, and "net::<unknown>" for any other code, and equal codes always
yield equal strings. -/
theorem c9_errorToString_total (table : List (Int × String)) (code : Int) :
    (code = 0 → ErrorToString table code = "net::OK") ∧
    (∀ label, code ≠ 0 → table.lookup code = some label →
      ErrorToString table code = "net::" ++ label) ∧
    (code ≠ 0 → table.lookup code = none →
      ErrorToString table code = "net::<unknown>") ∧
    (∀ code2, code2 = code →
      ErrorToString table code2 = ErrorToString table code) := by
  refine ⟨fun h0 => by simp [ErrorToString, h0], ?_, ?_, ?_⟩
  · intro label hne hsome
    simp [ErrorToString, hne, hsome]
  · intro hne hnone
    simp [ErrorToString, hne, hnone]
  · intro code2 heq
    rw [heq]

/-- Witness for c9_errorToString_total on a two-entry table. -/
theorem c9_errorToString_total_witness :
    ErrorToString [(-2, "ERR_FAILED"), (-3, "ERR_ABORTED")] 0 = "net::OK" ∧
    ErrorToString [(-2, "ERR_FAILED"), (-3, "ERR_ABORTED")] (-3) =
      "net::ERR_ABORTED" ∧
    ErrorToString [(-2, "ERR_FAILED"), (-3, "ERR_ABORTED")] 5 =
      "net::<unknown>" :=
  ⟨(c9_errorToString_total [(-2, "ERR_FAILED"), (-3, "ERR_ABORTED")] 0).1
      rfl,
   (c9_errorToString_total [(-2, "ERR_FAILED"), (-3, "ERR_ABORTED")]
      (-3)).2.1 "ERR_ABORTED" (by decide) (by decide),
   (c9_errorToString_total [(-2, "ERR_FAILED"), (-3, "ERR_ABORTED")]
      5).2.2.1 (by decide) (by decide)⟩

/-- Claim C10: after a successful Start, a worker that ran through its
startup sequence, and a completed Stop, GetThreadId does not block (the
manual-reset idEvent stays signaled, being reset only by Start) and returns
the id of the exited worker, not the invalid sentinel. -/
theorem c10_getThreadId_after_stop (debug : Bool) (handle osId : Nat)
    (s : ThreadState) (hid : osId ≠ kInvalidThreadId) :
    (Stop debug
        (threadMainStart osId (Start true handle s).2).1).1.idEvent.signaled
      = true ∧
    GetThreadId (Stop debug
        (threadMainStart osId (Start true handle s).2).1).1 = some osId ∧
    GetThreadId (Stop debug
        (threadMainStart osId (Start true handle s).2).1).1 ≠
      some kInvalidThreadId := by
  have hsig : (Stop debug
      (threadMainStart osId (Start true handle s).2).1).1.idEvent.signaled
      = true := by
    cases hstop : s.stopping <;>
      simp [Stop, Start, StartWithOptions, Options.default, threadMainStart,
        StopSoon, threadMainFinish, runLoop, ThreadQuitHelper,
        WaitableEvent.Signal, WaitableEvent.Reset, hstop]
  have hidv : (Stop debug
      (threadMainStart osId (Start true handle s).2).1).1.id = osId := by
    cases hstop : s.stopping <;>
      simp [Stop, Start, StartWithOptions, Options.default, threadMainStart,
        StopSoon, threadMainFinish, runLoop, ThreadQuitHelper,
        WaitableEvent.Signal, WaitableEvent.Reset, hstop]
  refine ⟨hsig, ?_, ?_⟩
  · simp [GetThreadId, hsig, hidv]
  · simp [GetThreadId, hsig, hidv]
    exact hid

/-- Witness for c10_getThreadId_after_stop at the constructed state with
worker id 7. -/
theorem c10_getThreadId_after_stop_witness :
    (Stop true
        (threadMainStart 7 (Start true 1 (mkThread "w")).2).1).1.idEvent.signaled
      = true ∧
    GetThreadId (Stop true
        (threadMainStart 7 (Start true 1 (mkThread "w")).2).1).1 = some 7 ∧
    GetThreadId (Stop true
        (threadMainStart 7 (Start true 1 (mkThread "w")).2).1).1 ≠
      some kInvalidThreadId :=
  c10_getThreadId_after_stop true 1 7 (mkThread "w") (by decide)

end Phoenix
